import Mathlib

/-!
Verification of the METANET-style traffic equation engine
(`src/sym_metanet/engines/casadi.py`).

The equation functions are pure maps from (symbolic) numeric values to
numeric values; we embed them shallowly over the rationals `ℚ`, with
CasADi's `fmin`/`fmax` as `min`/`max`, the optional keyword arguments of
`step_speed` as `Option ℚ`, and the fallible constructors (`Engine.__init__`,
`Engine.var`) as `Except`-returning functions.
-/

namespace SymMetanet

/-- Embeds `OriginsEngine.get_ramp_flow`.  `type` is the literal string
argument of the Python function (the source compares it against `"in"`
and otherwise uses the `"out"` formula, which is also the default). -/
def get_ramp_flow (d w C r rho_max rho_first rho_crit T : ℚ)
    (type : String) : ℚ :=
  let term1 := d + w / T
  let term3 := (rho_max - rho_first) / (rho_max - rho_crit)
  if type = "in" then
    min term1 (C * min r term3)
  else
    r * min term1 (C * min 1 term3)

/-- Embeds `OriginsEngine.step_queue`. -/
def step_queue (w d q T : ℚ) : ℚ :=
  w + T * (d - q)

/-- Embeds `LinksEngine.step_density`. -/
def step_density (rho q q_up lanes L T : ℚ) : ℚ :=
  rho + (T / lanes / L) * (q_up - q)

/-- Embeds `LinksEngine.step_speed`.  The per-segment vectors are maps
`Fin (n+1) → ℚ` (so index `0` and the Python index `-1`, here `Fin.last n`,
always exist); the five optional keyword arguments are `Option ℚ` with
`none` for Python's `None` default.  The two in-place corrections
`v_next[0] -= …` and `v_next[-1] -= …` become `Function.update`. -/
def step_speed (n : ℕ) (v v_up rho rho_down Veq : Fin (n + 1) → ℚ)
    (lanes L tau eta kappa T : ℚ)
    (q_ramp delta lanes_drop phi rho_crit : Option ℚ) : Fin (n + 1) → ℚ :=
  let relaxation : Fin (n + 1) → ℚ := fun i => (T / tau) * (Veq i - v i)
  let convection : Fin (n + 1) → ℚ := fun i => T * v i / L * (v_up i - v i)
  let anticipation : Fin (n + 1) → ℚ :=
    fun i => (eta * T / tau) * (rho_down i - rho i) / (L * (rho i + kappa))
  let v_next : Fin (n + 1) → ℚ :=
    fun i => v i + relaxation i + convection i - anticipation i
  let v_next2 : Fin (n + 1) → ℚ :=
    match q_ramp, delta with
    | some qr, some dl =>
        Function.update v_next 0
          (v_next 0 - (dl * T * qr * v 0) / (L * lanes * (rho 0 + kappa)))
    | _, _ => v_next
  match lanes_drop, phi, rho_crit with
  | some ld, some ph, some rc =>
      Function.update v_next2 (Fin.last n)
        (v_next2 (Fin.last n)
          - (ph * T * ld * rho (Fin.last n) * v (Fin.last n) ^ 2)
            / (L * lanes * rc))
  | _, _, _ => v_next2

/-- Embeds `DestinationsEngine.get_congested_downstream_density`. -/
def get_congested_downstream_density
    (rho_last rho_destination rho_crit : ℚ) : ℚ :=
  max (min rho_last rho_crit) rho_destination

/-- The two CasADi symbolic kinds, values of the `csTYPES` dictionary. -/
inductive CsSymKind
  | SX
  | MX
deriving DecidableEq

/-- Embeds the module-level dictionary `csTYPES = {'SX': cs.SX, 'MX': cs.MX}`
as an association list. -/
def csTYPES : List (String × CsSymKind) :=
  [("SX", CsSymKind.SX), ("MX", CsSymKind.MX)]

/-- Embeds `Engine.__init__`: an unrecognized `sym_type` raises `ValueError`
(modelled as `Except.error` carrying the message, which intercalates the
`csTYPES` keys); a recognized one stores the looked-up symbolic kind. -/
def Engine.init (sym_type : String) : Except String CsSymKind :=
  match csTYPES.lookup sym_type with
  | some t => Except.ok t
  | none =>
      Except.error ("CasADi symbolic type must be in \x7b"
        ++ ", ".intercalate (csTYPES.map Prod.fst)
        ++ "\x7d; got " ++ sym_type ++ " instead.")

/-- A constructed CasADi symbolic variable (name plus requested shape). -/
structure CasadiVar where
  name : String
  shape : List Nat

/-- Embeds `Engine.var`: the shape must have at most two dimensions
(`assert len(shape) <= 2`, modelled as `Except.error` carrying the
assertion message), after which the variable is constructed. -/
def Engine.var (name : String) (shape : List Nat) : Except String CasadiVar :=
  if shape.length ≤ 2 then
    Except.ok ⟨name, shape⟩
  else
    Except.error "CasADi supports 1D and 2D variables only."

end SymMetanet

namespace SymMetanet

/-- Unfolding lemma: the `type='in'` branch of `get_ramp_flow`. -/
lemma get_ramp_flow_in_def (d w C r rho_max rho_first rho_crit T : ℚ) :
    get_ramp_flow d w C r rho_max rho_first rho_crit T "in"
      = min (d + w / T)
          (C * min r ((rho_max - rho_first) / (rho_max - rho_crit))) := rfl

/-- Unfolding lemma: the `type='out'` branch of `get_ramp_flow`. -/
lemma get_ramp_flow_out_def (d w C r rho_max rho_first rho_crit T : ℚ) :
    get_ramp_flow d w C r rho_max rho_first rho_crit T "out"
      = r * min (d + w / T)
          (C * min 1 ((rho_max - rho_first) / (rho_max - rho_crit))) := rfl

/-- C1: with `type='in'`, the metering rate `r` competes inside the
capacity-limit minimum against the congestion term. -/
theorem ramp_flow_in_formula (d w C r rho_max rho_first rho_crit T : ℚ) :
    get_ramp_flow d w C r rho_max rho_first rho_crit T "in"
      = min (d + w / T)
          (C * min r ((rho_max - rho_first) / (rho_max - rho_crit))) := by
  rfl

/-- C2: with `type='out'`, the congestion term is clamped to at most 1 and
the rate `r` multiplies the already-taken minimum. -/
theorem ramp_flow_out_formula (d w C r rho_max rho_first rho_crit T : ℚ) :
    get_ramp_flow d w C r rho_max rho_first rho_crit T "out"
      = r * min (d + w / T)
          (C * min 1 ((rho_max - rho_first) / (rho_max - rho_crit))) := by
  rfl

/-- C10: at full metering rate `r = 1` the two policies coincide, both
reducing to `min (d + w/T) (C * min 1 term3)`. -/
theorem ramp_flow_in_out_agree_at_full_rate
    (d w C rho_max rho_first rho_crit T : ℚ) :
    get_ramp_flow d w C 1 rho_max rho_first rho_crit T "in"
        = get_ramp_flow d w C 1 rho_max rho_first rho_crit T "out"
      ∧ get_ramp_flow d w C 1 rho_max rho_first rho_crit T "in"
        = min (d + w / T)
            (C * min 1 ((rho_max - rho_first) / (rho_max - rho_crit))) := by
  constructor
  · show min _ _ = 1 * min _ _
    rw [one_mul]
  · rfl

/-- C3 counterexample: with `d = -1` (all other arguments fixed) the inner
minimum is negative, so raising the rate from `0` to `1` lowers the result. -/
theorem ramp_flow_out_not_monotone_in_r :
    ¬ get_ramp_flow (-1) 0 1 0 2 0 1 1 "out"
        ≤ get_ramp_flow (-1) 0 1 1 2 0 1 1 "out" := by
  rw [get_ramp_flow_out_def, get_ramp_flow_out_def]
  norm_num

/-- C3 (amended): for fixed other arguments with a nonnegative limited flow
`min (d + w/T) (C * min 1 term3)`, the `type='out'` result is monotonically
non-decreasing in `r`. -/
theorem ramp_flow_out_monotone_in_r
    (d w C rho_max rho_first rho_crit T r1 r2 : ℚ)
    (hr : r1 ≤ r2)
    (hM : 0 ≤ min (d + w / T)
        (C * min 1 ((rho_max - rho_first) / (rho_max - rho_crit)))) :
    get_ramp_flow d w C r1 rho_max rho_first rho_crit T "out"
      ≤ get_ramp_flow d w C r2 rho_max rho_first rho_crit T "out" := by
  rw [get_ramp_flow_out_def, get_ramp_flow_out_def]
  exact mul_le_mul_of_nonneg_right hr hM

/-- C3 witness: the amended monotonicity theorem applied at the spec's
concrete example (`d=100, w=0, C=2000, T=10, rho_max=180, rho_first=50,
rho_crit=30`) with rates `0 ≤ 1/2`. -/
theorem ramp_flow_out_monotone_in_r_witness :
    get_ramp_flow 100 0 2000 0 180 50 30 10 "out"
      ≤ get_ramp_flow 100 0 2000 (1/2) 180 50 30 10 "out" :=
  ramp_flow_out_monotone_in_r 100 0 2000 180 50 30 10 0 (1/2)
    (by norm_num) (by norm_num)

/-- C6: for positive `lanes`, `L`, `T`, `step_density` equals
`rho + T/(lanes*L) * (q_up - q)` exactly. -/
theorem step_density_formula (rho q q_up lanes L T : ℚ)
    (hlanes : 0 < lanes) (hL : 0 < L) (hT : 0 < T) :
    step_density rho q q_up lanes L T
      = rho + T / (lanes * L) * (q_up - q) := by
  unfold step_density
  rw [div_div]

/-- C6 witness: the density-update formula applied at
`rho=10, q=3, q_up=7, lanes=2, L=1, T=4`. -/
theorem step_density_formula_witness :
    step_density 10 3 7 2 1 4 = 10 + 4 / (2 * 1) * (7 - 3) :=
  step_density_formula 10 3 7 2 1 4 (by norm_num) (by norm_num) (by norm_num)

/-- C4: with all five optional arguments unsupplied, every segment of the
`step_speed` output is the sum of the relaxation and convection terms and
the subtracted anticipation term. -/
theorem step_speed_base_formula (n : ℕ)
    (v v_up rho rho_down Veq : Fin (n + 1) → ℚ)
    (lanes L tau eta kappa T : ℚ) (i : Fin (n + 1)) :
    step_speed n v v_up rho rho_down Veq lanes L tau eta kappa T
        none none none none none i
      = v i + (T / tau) * (Veq i - v i) + (T * v i / L) * (v_up i - v i)
          - (eta * T / tau) * (rho_down i - rho i) / (L * (rho i + kappa)) :=
  rfl

/-- Unfolding lemma: with `q_ramp` and `delta` supplied and the lane-drop
arguments unsupplied, `step_speed` is a point update at segment `0` of the
all-unsupplied output. -/
lemma step_speed_ramp_eq_update (n : ℕ)
    (v v_up rho rho_down Veq : Fin (n + 1) → ℚ)
    (lanes L tau eta kappa T qr dl : ℚ) :
    step_speed n v v_up rho rho_down Veq lanes L tau eta kappa T
        (some qr) (some dl) none none none
      = Function.update
          (step_speed n v v_up rho rho_down Veq lanes L tau eta kappa T
            none none none none none) 0
          (step_speed n v v_up rho rho_down Veq lanes L tau eta kappa T
              none none none none none 0
            - (dl * T * qr * v 0) / (L * lanes * (rho 0 + kappa))) := rfl

/-- C5: supplying `q_ramp` and `delta` (but no lane-drop arguments) changes
only segment `0`, by subtracting the on-ramp merging correction, and leaves
every other segment equal to the all-unsupplied output; supplying `q_ramp`
without `delta` skips the correction entirely, giving exactly the
all-unsupplied output. -/
theorem step_speed_optional_corrections (n : ℕ)
    (v v_up rho rho_down Veq : Fin (n + 1) → ℚ)
    (lanes L tau eta kappa T qr dl : ℚ) :
    (∀ i : Fin (n + 1), i ≠ 0 →
        step_speed n v v_up rho rho_down Veq lanes L tau eta kappa T
            (some qr) (some dl) none none none i
          = step_speed n v v_up rho rho_down Veq lanes L tau eta kappa T
              none none none none none i)
      ∧ step_speed n v v_up rho rho_down Veq lanes L tau eta kappa T
            (some qr) (some dl) none none none 0
          = step_speed n v v_up rho rho_down Veq lanes L tau eta kappa T
              none none none none none 0
            - (dl * T * qr * v 0) / (L * lanes * (rho 0 + kappa))
      ∧ step_speed n v v_up rho rho_down Veq lanes L tau eta kappa T
            (some qr) none none none none
          = step_speed n v v_up rho rho_down Veq lanes L tau eta kappa T
              none none none none none := by
  refine ⟨fun i hi => ?_, ?_, rfl⟩
  · rw [step_speed_ramp_eq_update]
    exact Function.update_noteq hi _ _
  · rw [step_speed_ramp_eq_update]
    exact Function.update_same _ _ _

/-- C5 witness: at two segments with concrete constant inputs, segment `1`
(the last) of the `q_ramp`/`delta`-corrected output coincides with the
uncorrected output. -/
theorem step_speed_optional_corrections_witness :
    ((1 : Fin 2) ≠ 0)
      ∧ step_speed 1 (fun _ => 2) (fun _ => 3) (fun _ => 4) (fun _ => 5)
            (fun _ => 6) 1 1 1 1 1 1 (some 7) (some 8) none none none 1
          = step_speed 1 (fun _ => 2) (fun _ => 3) (fun _ => 4) (fun _ => 5)
              (fun _ => 6) 1 1 1 1 1 1 none none none none none 1 :=
  ⟨by decide,
    (step_speed_optional_corrections 1 (fun _ => 2) (fun _ => 3) (fun _ => 4)
        (fun _ => 5) (fun _ => 6) 1 1 1 1 1 1 7 8).1 1 (by decide)⟩

/-- C7: `get_congested_downstream_density` is
`max (min rho_last rho_crit) rho_destination`, and at `rho_crit = 30`,
`rho_destination = 10` it maps `50 ↦ 30`, `5 ↦ 10`, `20 ↦ 20`. -/
theorem congested_downstream_density_formula :
    (∀ rho_last rho_destination rho_crit : ℚ,
        get_congested_downstream_density rho_last rho_destination rho_crit
          = max (min rho_last rho_crit) rho_destination)
      ∧ get_congested_downstream_density 50 10 30 = 30
      ∧ get_congested_downstream_density 5 10 30 = 10
      ∧ get_congested_downstream_density 20 10 30 = 20 := by
  refine ⟨fun _ _ _ => rfl, ?_, ?_, ?_⟩ <;> decide

/-- C8: constructing the engine with a symbolic-kind name outside `csTYPES`
yields the invalid-argument error whose message intercalates all the valid
names; each supported name succeeds.  (The model is a pure function, so no
existing state can be modified.) -/
theorem engine_init_validates (s : String)
    (hs : s ∉ csTYPES.map Prod.fst) :
    Engine.init s
        = Except.error ("CasADi symbolic type must be in \x7b"
            ++ ", ".intercalate (csTYPES.map Prod.fst)
            ++ "\x7d; got " ++ s ++ " instead.")
      ∧ Engine.init "SX" = Except.ok CsSymKind.SX
      ∧ Engine.init "MX" = Except.ok CsSymKind.MX := by
  simp only [csTYPES, List.map, List.mem_cons, List.not_mem_nil, or_false,
    not_or] at hs
  obtain ⟨h1, h2⟩ := hs
  refine ⟨?_, rfl, rfl⟩
  have e1 : (s == "SX") = false := beq_eq_false_iff_ne.mpr h1
  have e2 : (s == "MX") = false := beq_eq_false_iff_ne.mpr h2
  simp [Engine.init, csTYPES, List.lookup, e1, e2]

/-- C8 witness: the unsupported name `'DX'` is rejected with the message
enumerating `SX` and `MX`. -/
theorem engine_init_validates_witness :
    ("DX" ∉ csTYPES.map Prod.fst)
      ∧ Engine.init "DX"
          = Except.error ("CasADi symbolic type must be in \x7b"
              ++ ", ".intercalate (csTYPES.map Prod.fst)
              ++ "\x7d; got " ++ "DX" ++ " instead.") :=
  ⟨by decide, (engine_init_validates "DX" (by decide)).1⟩

/-- C9: the variable constructor succeeds on every shape of at most two
dimensions and fails with the invalid-argument message on every shape of
more than two dimensions. -/
theorem engine_var_shape_check (name : String) (shape : List Nat) :
    (shape.length ≤ 2 → Engine.var name shape = Except.ok ⟨name, shape⟩)
      ∧ (2 < shape.length →
          Engine.var name shape
            = Except.error "CasADi supports 1D and 2D variables only.") := by
  constructor
  · intro h
    simp [Engine.var, h]
  · intro h
    rw [Engine.var, if_neg (by omega)]

/-- C9 witness: shapes `(3,)` and `(2,3)` succeed, shape `(2,3,4)` fails. -/
theorem engine_var_shape_check_witness :
    (([3] : List Nat).length ≤ 2
      ∧ Engine.var "x" [3] = Except.ok ⟨"x", [3]⟩)
      ∧ (([2, 3] : List Nat).length ≤ 2
        ∧ Engine.var "y" [2, 3] = Except.ok ⟨"y", [2, 3]⟩)
      ∧ (2 < ([2, 3, 4] : List Nat).length
        ∧ Engine.var "z" [2, 3, 4]
            = Except.error "CasADi supports 1D and 2D variables only.") :=
  ⟨⟨by decide, (engine_var_shape_check "x" [3]).1 (by decide)⟩,
    ⟨by decide, (engine_var_shape_check "y" [2, 3]).1 (by decide)⟩,
    ⟨by decide, (engine_var_shape_check "z" [2, 3, 4]).2 (by decide)⟩⟩

end SymMetanet
